import Mathlib

/-!
Shallow embedding of the calculator core of `FA25-IS601855-Assignment-4`:
the arithmetic primitives (`app/operation/__init__.py`), the Calculation
variants with their registry/factory (`app/calculation/__init__.py`), and
the string rendering used by `__str__` / `__repr__`.

Numeric values are modelled as rationals (`ℚ`): Python's binary floats are
a subset of ℚ and every arithmetic fact the claims state is exact on the
inputs involved.  Python exceptions are modelled explicitly, keeping the
exception class and the exact message text, since the claims distinguish
`ZeroDivisionError` at the Calculation layer from `ValueError` at the
primitive layer by message.
-/

/-- Python exception values raised by the calculator core: the exception
class together with its message string.  `unrepresentable` marks results
that leave the rational model (irrational powers), a model boundary the
claims never touch. -/
inductive PyError where
  | valueError (msg : String)
  | zeroDivisionError (msg : String)
  | unrepresentable (msg : String)
deriving DecidableEq, Repr

deriving instance DecidableEq for Except

/-- Model of Python `str.lower` on a single character, restricted to ASCII
(the only characters the calculator's operation names use): an uppercase
ASCII letter is shifted down by 32, everything else is unchanged. -/
def pyCharLower (c : Char) : Char :=
  if 65 ≤ c.toNat ∧ c.toNat ≤ 90 then Char.ofNat (c.toNat + 32) else c

/-- Model of Python `str.lower`, mapping `pyCharLower` over the characters. -/
def pyLower (s : String) : String :=
  String.mk (s.data.map pyCharLower)

/-- Helper: does `pat` occur as a leading segment of `s`? -/
def matchesAt : List Char → List Char → Bool
  | [], _ => true
  | _ :: _, [] => false
  | p :: ps, c :: cs => p = c && matchesAt ps cs

/-- Fuelled worker for `pyReplace`: scans the character list, replacing each
occurrence of the (non-empty) pattern. -/
def pyReplaceAux : Nat → List Char → List Char → List Char → List Char
  | 0, s, _, _ => s
  | fuel + 1, s, pat, rep =>
    match s with
    | [] => []
    | c :: rest =>
      if pat.length > 0 && matchesAt pat s then
        rep ++ pyReplaceAux fuel (s.drop pat.length) pat rep
      else
        c :: pyReplaceAux fuel rest pat rep

/-- Model of Python `str.replace(pat, rep)`: every occurrence of `pat` in
`s` is replaced by `rep`, scanning left to right. -/
def pyReplace (s pat rep : String) : String :=
  String.mk (pyReplaceAux s.data.length s.data pat.data rep.data)

/-- Model of Python `repr`/f-string rendering of a float whose value is the
rational `q`.  An integral value renders as `"<n>.0"`; a value with a finite
decimal expansion renders as its shortest exact decimal.  Rationals with no
finite decimal expansion are outside the float model and fall back to the
raw rational rendering (never reached by the claims). -/
def pyFloatRepr (q : ℚ) : String :=
  if q.den = 1 then toString q.num ++ ".0"
  else
    match (List.range 64).find? (fun k => (q * (10 : ℚ) ^ (k + 1)).den = 1) with
    | some k =>
        let m := (q * (10 : ℚ) ^ (k + 1)).num
        let sign := if m < 0 then "-" else ""
        let ds := Nat.toDigits 10 m.natAbs
        let ds := if ds.length < k + 2 then List.replicate (k + 2 - ds.length) '0' ++ ds else ds
        sign ++ String.mk (ds.take (ds.length - (k + 1))) ++ "." ++
          String.mk (ds.drop (ds.length - (k + 1)))
    | none => toString q

namespace Operation

/-- Embedding of `Operation.addition`: `return a + b`. -/
def addition (a b : ℚ) : ℚ := a + b

/-- Embedding of `Operation.subtraction`: `return a - b`. -/
def subtraction (a b : ℚ) : ℚ := a - b

/-- Embedding of `Operation.multiplication`: `return a * b`. -/
def multiplication (a b : ℚ) : ℚ := a * b

/-- Embedding of `Operation.division`: raises
`ValueError("Division by zero is not allowed.")` when `b == 0`, and returns
`a / b` otherwise. -/
def division (a b : ℚ) : Except PyError ℚ :=
  if b = 0 then .error (.valueError "Division by zero is not allowed.")
  else .ok (a / b)

/-- Embedding of `Operation.power`: `return a ** b`, following Python's
float `**` semantics on rationals.  Any base to the power `0.0` is `1.0`;
`0.0` to a positive power is `0.0` and to a negative power raises
`ZeroDivisionError`; a nonzero base to an integral power is the exact
integer power.  A non-integral exponent of a nonzero base generally leaves
ℚ and is marked `unrepresentable` (a model boundary the claims never
touch). -/
def power (a b : ℚ) : Except PyError ℚ :=
  if b = 0 then .ok 1
  else if a = 0 then
    if 0 < b then .ok 0
    else .error (.zeroDivisionError "0.0 cannot be raised to a negative power")
  else if b.den = 1 then .ok (a ^ b.num)
  else .error (.unrepresentable "non-integral exponent of a nonzero base")

end Operation

/-- Tags for the five registered `Calculation` subclasses. -/
inductive CalcClass where
  | add
  | subtract
  | multiply
  | divide
  | power
deriving DecidableEq, Repr

/-- Python class name (`type(self).__name__`) of each Calculation subclass. -/
def CalcClass.className : CalcClass → String
  | .add => "AddCalculation"
  | .subtract => "SubtractCalculation"
  | .multiply => "MultiplyCalculation"
  | .divide => "DivideCalculation"
  | .power => "PowerCalculation"

/-- A `Calculation` instance: its concrete subclass and its two operands
`self.a`, `self.b`. -/
structure Calculation where
  cls : CalcClass
  a : ℚ
  b : ℚ
deriving DecidableEq, Repr

/-- Embedding of the `execute` methods of the five Calculation subclasses.
`DivideCalculation.execute` first raises
`ZeroDivisionError("Cannot divide by zero.")` when `self.b == 0` and only
then delegates to `Operation.division`; the other subclasses delegate
directly to their primitives. -/
def Calculation.execute (c : Calculation) : Except PyError ℚ :=
  match c.cls with
  | .add => .ok (Operation.addition c.a c.b)
  | .subtract => .ok (Operation.subtraction c.a c.b)
  | .multiply => .ok (Operation.multiplication c.a c.b)
  | .divide =>
      if c.b = 0 then .error (.zeroDivisionError "Cannot divide by zero.")
      else Operation.division c.a c.b
  | .power => Operation.power c.a c.b

/-- Embedding of `Calculation.__str__`: runs `execute()` (so any exception
it raises propagates), strips `"Calculation"` from the class name to get
the operation label, and renders
`f"{class_name}: {a} {operation_name} {b} = {result}"`. -/
def Calculation.pyStr (c : Calculation) : Except PyError String :=
  match c.execute with
  | .error e => .error e
  | .ok result =>
      let name := c.cls.className
      let operationName := pyReplace name "Calculation" ""
      .ok (name ++ ": " ++ pyFloatRepr c.a ++ " " ++ operationName ++ " " ++
        pyFloatRepr c.b ++ " = " ++ pyFloatRepr result)

/-- Embedding of `Calculation.__repr__`:
`f"{class_name}(a={a}, b={b})"`. -/
def Calculation.pyRepr (c : Calculation) : String :=
  c.cls.className ++ "(a=" ++ pyFloatRepr c.a ++ ", b=" ++ pyFloatRepr c.b ++ ")"

/-- The factory's `_calculations` dictionary: an association list from
operation-name strings to Calculation subclasses, in insertion order
(Python dicts preserve insertion order). -/
abbrev Registry := List (String × CalcClass)

/-- Model of Python `dict.get` / `in` on the registry: first (only, since
registration rejects duplicates) binding of the key. -/
def dictGet (k : String) : Registry → Option CalcClass
  | [] => none
  | (k', v) :: rest => if k = k' then some v else dictGet k rest

/-- Model of Python `', '.join` over the registry's key list. -/
def joinComma : List String → String
  | [] => ""
  | [s] => s
  | s :: t :: rest => s ++ ", " ++ joinComma (t :: rest)

/-- Embedding of `CalculationFactory.register_calculation` applied to a
subclass: lowercases the name; if it is already a key, raises
`ValueError(f"Calculation type '{calculation_type}' is already registered.")`
before touching the dictionary; otherwise appends the binding.  The result
pairs the registry state after the call with the exception raised, if
any. -/
def register_calculation (reg : Registry) (calculationType : String)
    (subclass : CalcClass) : Registry × Option PyError :=
  let lower := pyLower calculationType
  if (dictGet lower reg).isSome then
    (reg, some (.valueError ("Calculation type '" ++ calculationType ++
      "' is already registered.")))
  else
    (reg ++ [(lower, subclass)], none)

/-- Embedding of `CalculationFactory.create_calculation`: lowercases the
name, looks it up; if absent raises
`ValueError(f"Unsupported calculation type: '{calculation_type}'. Available
types: {available_types}")` where the available types are the keys joined
with `', '`; otherwise constructs the subclass on the operands.  It only
reads the registry. -/
def create_calculation (reg : Registry) (calculationType : String)
    (a b : ℚ) : Except PyError Calculation :=
  let lower := pyLower calculationType
  match dictGet lower reg with
  | some subclass => .ok { cls := subclass, a := a, b := b }
  | none =>
      .error (.valueError ("Unsupported calculation type: '" ++ calculationType ++
        "'. Available types: " ++ joinComma (reg.map Prod.fst)))

/-- The registry after module load: the five decorators run top to bottom,
registering `add`, `subtract`, `multiply`, `divide`, `power` in order. -/
def defaultRegistry : Registry :=
  [("add", .add), ("subtract", .subtract), ("multiply", .multiply),
   ("divide", .divide), ("power", .power)]

/-- Sanity: replaying the five module-load registrations from the empty
dictionary raises nothing and produces `defaultRegistry`. -/
theorem defaultRegistry_built :
    (register_calculation [] "add" .add).2 = none ∧
    (let r1 := (register_calculation [] "add" .add).1
     (register_calculation r1 "subtract" .subtract).2 = none ∧
     (let r2 := (register_calculation r1 "subtract" .subtract).1
      (register_calculation r2 "multiply" .multiply).2 = none ∧
      (let r3 := (register_calculation r2 "multiply" .multiply).1
       (register_calculation r3 "divide" .divide).2 = none ∧
       (let r4 := (register_calculation r3 "divide" .divide).1
        (register_calculation r4 "power" .power).2 = none ∧
        (register_calculation r4 "power" .power).1 = defaultRegistry)))) := by
  decide

/-! ### Helper lemmas -/

/-- Converting a scalar value below the surrogate range to a `Char` and back
is the identity. -/
theorem char_toNat_ofNat_of_lt (n : Nat) (h : n < 0xd800) :
    (Char.ofNat n).toNat = n := by
  unfold Char.ofNat
  rw [dif_pos (Or.inl h)]
  rfl

/-- Lowercasing an ASCII character twice is the same as lowercasing it
once. -/
theorem pyCharLower_idem (c : Char) :
    pyCharLower (pyCharLower c) = pyCharLower c := by
  unfold pyCharLower
  by_cases h : 65 ≤ c.toNat ∧ c.toNat ≤ 90
  · rw [if_pos h]
    have ht : (Char.ofNat (c.toNat + 32)).toNat = c.toNat + 32 :=
      char_toNat_ofNat_of_lt _ (by omega)
    rw [if_neg (by rw [ht]; omega)]
  · rw [if_neg h, if_neg h]

/-- Lowercasing a string twice is the same as lowercasing it once, so a
lowercased key looked up after lowercasing again hits the same entry. -/
theorem pyLower_idem (s : String) : pyLower (pyLower s) = pyLower s := by
  unfold pyLower
  simp only [List.map_map]
  congr 1
  exact List.map_congr_left fun c _ => pyCharLower_idem c

/-- Appending a fresh binding to the registry makes its key resolve to the
new subclass. -/
theorem dictGet_append_of_none (k : String) (reg : Registry) (c : CalcClass)
    (h : dictGet k reg = none) : dictGet k (reg ++ [(k, c)]) = some c := by
  induction reg with
  | nil => simp [dictGet]
  | cons p rest ih =>
    obtain ⟨k', v⟩ := p
    by_cases hk : k = k'
    · simp [dictGet, hk] at h
    · simp only [List.cons_append, dictGet, if_neg hk] at h ⊢
      exact ih h

/-! ### Claims -/

/-- C1: `DivideCalculation.execute` checks the divisor for zero before
delegating: when `b == 0` it raises `ZeroDivisionError` with message
exactly "Cannot divide by zero.", and when `b != 0` it returns exactly
what `Operation.division a b` returns; the primitive keeps its own
independent zero check with the distinct message
"Division by zero is not allowed.". -/
theorem divideCalculation_zero_check_layers (a b : ℚ) :
    (b = 0 → Calculation.execute ⟨.divide, a, b⟩ =
      .error (.zeroDivisionError "Cannot divide by zero.")) ∧
    (b ≠ 0 → Calculation.execute ⟨.divide, a, b⟩ = Operation.division a b) ∧
    Operation.division a 0 =
      .error (.valueError "Division by zero is not allowed.") := by
  refine ⟨fun hb => ?_, fun hb => ?_, ?_⟩
  · simp [Calculation.execute, hb]
  · simp [Calculation.execute, hb]
  · simp [Operation.division]

/-- Witness for C1 at the concrete operand pairs (1, 0) and (1, 2). -/
theorem divideCalculation_zero_check_layers_witness :
    Calculation.execute ⟨.divide, 1, 0⟩ =
      .error (.zeroDivisionError "Cannot divide by zero.") ∧
    Calculation.execute ⟨.divide, 1, 2⟩ = Operation.division 1 2 ∧
    Operation.division 1 0 =
      .error (.valueError "Division by zero is not allowed.") :=
  ⟨(divideCalculation_zero_check_layers 1 0).1 rfl,
   (divideCalculation_zero_check_layers 1 2).2.1 (by norm_num),
   (divideCalculation_zero_check_layers 1 0).2.2⟩

/-- C2: the division primitive returns `a / b` whenever `b != 0`, and for
`b == 0` it raises `ValueError` with message exactly
"Division by zero is not allowed." instead of returning a value. -/
theorem operation_division_spec (a b : ℚ) :
    (b ≠ 0 → Operation.division a b = .ok (a / b)) ∧
    Operation.division a 0 =
      .error (.valueError "Division by zero is not allowed.") := by
  refine ⟨fun hb => ?_, ?_⟩
  · simp [Operation.division, hb]
  · simp [Operation.division]

/-- Witness for C2 at the concrete operand pair (10, 2) and divisor 0. -/
theorem operation_division_spec_witness :
    Operation.division 10 2 = .ok (10 / 2) ∧
    Operation.division 10 0 =
      .error (.valueError "Division by zero is not allowed.") :=
  ⟨(operation_division_spec 10 2).1 (by norm_num),
   (operation_division_spec 10 0).2⟩

/-- C3: registering a name already present after lowercasing raises the
duplicate-registration `ValueError` and leaves the registry unchanged;
registering a fresh name appends exactly one binding under the lowercased
name, and that name then resolves to the registered subclass. -/
theorem register_calculation_spec (reg : Registry) (name : String)
    (c : CalcClass) :
    ((dictGet (pyLower name) reg).isSome →
      register_calculation reg name c =
        (reg, some (.valueError ("Calculation type '" ++ name ++
          "' is already registered.")))) ∧
    (dictGet (pyLower name) reg = none →
      register_calculation reg name c = (reg ++ [(pyLower name, c)], none) ∧
      dictGet (pyLower name) (register_calculation reg name c).1 = some c) := by
  refine ⟨fun hdup => ?_, fun hfresh => ?_⟩
  · simp [register_calculation, hdup]
  · have hnone : ¬(dictGet (pyLower name) reg).isSome := by
      simp [hfresh]
    refine ⟨by simp [register_calculation, hnone], ?_⟩
    simp only [register_calculation, if_neg hnone]
    exact dictGet_append_of_none _ _ _ hfresh

/-- Witness for C3: re-registering "add" on the loaded registry fails with
the registry unchanged, and registering the fresh name "modulus" appends
exactly one binding. -/
theorem register_calculation_spec_witness :
    register_calculation defaultRegistry "add" .add =
      (defaultRegistry, some (.valueError
        "Calculation type 'add' is already registered.")) ∧
    register_calculation defaultRegistry "modulus" .add =
      (defaultRegistry ++ [("modulus", .add)], none) ∧
    dictGet "modulus" (register_calculation defaultRegistry "modulus" .add).1 =
      some .add :=
  ⟨(register_calculation_spec defaultRegistry "add" .add).1 (by decide),
   ((register_calculation_spec defaultRegistry "modulus" .add).2 (by decide)).1,
   ((register_calculation_spec defaultRegistry "modulus" .add).2 (by decide)).2⟩

/-- C4: creating a calculation for a name absent after lowercasing raises
the unsupported-operation `ValueError` whose message lists every currently
registered name; for a registered name it constructs the corresponding
Calculation holding the operands. -/
theorem create_calculation_spec (reg : Registry) (name : String) (a b : ℚ) :
    (dictGet (pyLower name) reg = none →
      create_calculation reg name a b =
        .error (.valueError ("Unsupported calculation type: '" ++ name ++
          "'. Available types: " ++ joinComma (reg.map Prod.fst)))) ∧
    (∀ c, dictGet (pyLower name) reg = some c →
      create_calculation reg name a b = .ok ⟨c, a, b⟩) := by
  refine ⟨fun habs => ?_, fun c hc => ?_⟩
  · simp [create_calculation, habs]
  · simp [create_calculation, hc]

/-- Witness for C4: creating "modulus" on the loaded registry fails with
the message listing all five registered names, and creating "divide"
returns a DivideCalculation holding the operands. -/
theorem create_calculation_spec_witness :
    create_calculation defaultRegistry "modulus" 2 3 =
      .error (.valueError ("Unsupported calculation type: 'modulus'. " ++
        "Available types: add, subtract, multiply, divide, power")) ∧
    create_calculation defaultRegistry "divide" 10 2 = .ok ⟨.divide, 10, 2⟩ := by
  refine ⟨?_, ?_⟩
  · have h := (create_calculation_spec defaultRegistry "modulus" 2 3).1 (by decide)
    rw [h]; decide
  · exact (create_calculation_spec defaultRegistry "divide" 10 2).2 .divide (by decide)

/-- C5: factory lookup is case-insensitive: creating from `name` and from
the lowercased `name` have the same outcome as far as the produced
Calculation is concerned, and in particular "ADD" and "add" on the loaded
registry both produce an AddCalculation with operands 2 and 3. -/
theorem create_calculation_case_insensitive (reg : Registry) (name : String)
    (a b : ℚ) :
    (create_calculation reg name a b).toOption =
      (create_calculation reg (pyLower name) a b).toOption ∧
    create_calculation defaultRegistry "ADD" 2 3 = .ok ⟨.add, 2, 3⟩ ∧
    create_calculation defaultRegistry "add" 2 3 = .ok ⟨.add, 2, 3⟩ := by
  refine ⟨?_, by decide, by decide⟩
  simp only [create_calculation, pyLower_idem]
  cases dictGet (pyLower name) reg <;> simp [Except.toOption]

/-- Witness for C5 at the mixed-case name "DiViDe" on the loaded
registry. -/
theorem create_calculation_case_insensitive_witness :
    (create_calculation defaultRegistry "DiViDe" 4 5).toOption =
      (create_calculation defaultRegistry (pyLower "DiViDe") 4 5).toOption ∧
    create_calculation defaultRegistry "ADD" 2 3 = .ok ⟨.add, 2, 3⟩ ∧
    create_calculation defaultRegistry "add" 2 3 = .ok ⟨.add, 2, 3⟩ :=
  create_calculation_case_insensitive defaultRegistry "DiViDe" 4 5

/-- C6: the power primitive maps (0, 0) to 1, (x, 0) to 1 for every
nonzero x, and (0, y) to 0 for every y > 0. -/
theorem operation_power_zero_cases (x y : ℚ) :
    Operation.power 0 0 = .ok 1 ∧
    (x ≠ 0 → Operation.power x 0 = .ok 1) ∧
    (0 < y → Operation.power 0 y = .ok 0) := by
  refine ⟨by simp [Operation.power], fun hx => by simp [Operation.power],
    fun hy => ?_⟩
  simp [Operation.power, hy.ne', hy]

/-- Witness for C6 at x = 2 and y = 1. -/
theorem operation_power_zero_cases_witness :
    Operation.power 0 0 = .ok 1 ∧
    Operation.power 2 0 = .ok 1 ∧
    Operation.power 0 1 = .ok 0 :=
  ⟨(operation_power_zero_cases 2 1).1,
   (operation_power_zero_cases 2 1).2.1 (by norm_num),
   (operation_power_zero_cases 2 1).2.2 (by norm_num)⟩

/-- C7: whenever `execute()` returns a result `r`, the string description
is exactly `"<OperationName>: <a> <OperationLabel> <b> = <r>"` with the
label obtained by removing "Calculation" from the class name, and the
debug representation is exactly `"<OperationName>(a=<a>, b=<b>)"`. -/
theorem calculation_str_repr_format (c : Calculation) (r : ℚ) :
    (c.execute = .ok r →
      c.pyStr = .ok (c.cls.className ++ ": " ++ pyFloatRepr c.a ++ " " ++
        pyReplace c.cls.className "Calculation" "" ++ " " ++
        pyFloatRepr c.b ++ " = " ++ pyFloatRepr r)) ∧
    c.pyRepr = c.cls.className ++ "(a=" ++ pyFloatRepr c.a ++ ", b=" ++
      pyFloatRepr c.b ++ ")" := by
  refine ⟨fun hr => ?_, rfl⟩
  simp [Calculation.pyStr, hr]

/-- Witness for C7: an AddCalculation of 10 and 5 executes to 15,
describes itself as "AddCalculation: 10.0 Add 5.0 = 15.0", and has debug
representation "AddCalculation(a=10.0, b=5.0)". -/
theorem calculation_str_repr_format_witness :
    Calculation.execute ⟨.add, 10, 5⟩ = .ok 15 ∧
    Calculation.pyStr ⟨.add, 10, 5⟩ =
      .ok "AddCalculation: 10.0 Add 5.0 = 15.0" ∧
    Calculation.pyRepr ⟨.add, 10, 5⟩ = "AddCalculation(a=10.0, b=5.0)" := by
  have hexec : Calculation.execute ⟨.add, 10, 5⟩ = .ok 15 := by
    show Except.ok (Operation.addition 10 5) = Except.ok 15
    norm_num [Operation.addition]
  refine ⟨hexec, ?_, ?_⟩
  · have h := (calculation_str_repr_format ⟨.add, 10, 5⟩ 15).1 hexec
    rw [h]; decide
  · have h := (calculation_str_repr_format ⟨.add, 10, 5⟩ 15).2
    rw [h]; decide

/-- C8: `execute` is a pure function of the subclass and the two operands:
two Calculations agreeing on class and operands execute to the same
outcome.  In the embedding `execute` neither takes nor returns the registry
or mutated operands, mirroring that the Python bodies only read
`self.a`/`self.b`. -/
theorem calculation_execute_deterministic (c1 c2 : Calculation)
    (hcls : c1.cls = c2.cls) (ha : c1.a = c2.a) (hb : c1.b = c2.b) :
    c1.execute = c2.execute := by
  obtain ⟨cls1, a1, b1⟩ := c1
  obtain ⟨cls2, a2, b2⟩ := c2
  cases hcls
  cases ha
  cases hb
  rfl

/-- Witness for C8 at two structurally equal DivideCalculations. -/
theorem calculation_execute_deterministic_witness :
    Calculation.execute ⟨.divide, 9, 3⟩ = Calculation.execute ⟨.divide, 9, 3⟩ :=
  calculation_execute_deterministic ⟨.divide, 9, 3⟩ ⟨.divide, 9, 3⟩ rfl rfl rfl

/-- C9: `DivideCalculation.execute` never surfaces the primitive's
zero-division message: it is never the `ValueError` with message
"Division by zero is not allowed.", and any error it raises is the
`ZeroDivisionError` with message "Cannot divide by zero.". -/
theorem divide_primitive_error_unreachable (a b : ℚ) :
    Calculation.execute ⟨.divide, a, b⟩ ≠
      .error (.valueError "Division by zero is not allowed.") ∧
    (∀ e, Calculation.execute ⟨.divide, a, b⟩ = .error e →
      e = .zeroDivisionError "Cannot divide by zero.") := by
  by_cases hb : b = 0
  · refine ⟨?_, fun e he => ?_⟩
    · simp [Calculation.execute, hb]
    · simp [Calculation.execute, hb] at he
      exact he.symm
  · refine ⟨?_, fun e he => ?_⟩
    · simp [Calculation.execute, Operation.division, hb]
    · simp [Calculation.execute, Operation.division, hb] at he

/-- Witness for C9 at the operand pair (3, 0): the raised error is the
Calculation-layer one. -/
theorem divide_primitive_error_unreachable_witness :
    Calculation.execute ⟨.divide, 3, 0⟩ ≠
      .error (.valueError "Division by zero is not allowed.") ∧
    PyError.zeroDivisionError "Cannot divide by zero." =
      .zeroDivisionError "Cannot divide by zero." :=
  ⟨(divide_primitive_error_unreachable 3 0).1,
   (divide_primitive_error_unreachable 3 0).2
     (.zeroDivisionError "Cannot divide by zero.") (by decide)⟩

/-- C10: taking the string description eagerly runs the calculation: any
error of `execute()` propagates out of `__str__` unchanged, so describing
a DivideCalculation with b = 0 raises the zero-division error
"Cannot divide by zero." instead of returning a string. -/
theorem calculation_str_eager_execute (c : Calculation) (a : ℚ) :
    (∀ e, c.execute = .error e → c.pyStr = .error e) ∧
    Calculation.pyStr ⟨.divide, a, 0⟩ =
      .error (.zeroDivisionError "Cannot divide by zero.") := by
  refine ⟨fun e he => ?_, ?_⟩
  · simp [Calculation.pyStr, he]
  · simp [Calculation.pyStr, Calculation.execute]

/-- Witness for C10 at a DivideCalculation of 7 and 0. -/
theorem calculation_str_eager_execute_witness :
    Calculation.pyStr ⟨.divide, 7, 0⟩ =
      .error (.zeroDivisionError "Cannot divide by zero.") ∧
    Calculation.pyStr ⟨.divide, 1, 0⟩ =
      .error (.zeroDivisionError "Cannot divide by zero.") :=
  ⟨(calculation_str_eager_execute ⟨.divide, 7, 0⟩ 7).1
     (.zeroDivisionError "Cannot divide by zero.") (by decide),
   (calculation_str_eager_execute ⟨.divide, 7, 0⟩ 1).2⟩
